import Mathlib

/-!
Verification of the Bots-Hub authorization evaluator and upvote cooldown
tracker (src/app.py) against its specification.

The embedding follows the source closely:
* Python identifiers (Discord user ids, bot owner ids) may be ints or
  strings; every comparison in the source goes through `str(...)`, modelled
  by `PyVal` and `pyStr`.
* `is_admin`, `is_bot_owner`, `can_edit_bot`, `can_delete_bot` are the
  authorization functions of src/app.py lines 49-63, parameterised by the
  configured `SITE_ADMIN_ID` (an environment variable, possibly unset,
  hence `Option String`; Python compares a `str` against `None` as unequal).
* The cooldown store `user_votes` maps `(str(user_id), str(bot_id))` keys to
  the last upvote time; time is modelled in whole seconds as `Int`.
* `upvote_bot` is the handler of lines 300-324: it returns the discriminated
  response together with the resulting bot table and vote store.
* `bot_detail_vote` is the cooldown-query part of `bot_detail`
  (lines 125-138); it reads the store and never writes it, which the model
  makes visible by returning the store alongside the view.
* `formatCooldown` renders a remaining `timedelta` the way the source does:
  Python's `timedelta.seconds` is the seconds component after normalisation,
  i.e. `total_seconds mod 86400`, then `divmod(·, 3600)` and `// 60`.
-/

namespace BotsHub

/-- A Python value used as an identifier: Discord ids appear both as
ints and as strings in session data and the database. -/
inductive PyVal where
  | intV : Int → PyVal
  | strV : String → PyVal
deriving DecidableEq, Repr

/-- Python `str(·)` on an identifier value. -/
def pyStr : PyVal → String
  | .intV n => toString n
  | .strV s => s

/-- The session user: `session["user"]`, a Discord user object; only the
`id` field is consulted by the authorization and cooldown paths. -/
structure Actor where
  id : PyVal
deriving DecidableEq, Repr

/-- A row of the `Bot` table; only the fields the verified paths read. -/
structure Bot where
  id : String
  owner_id : PyVal
  upvotes : Option Int
deriving DecidableEq, Repr

/-- `is_admin(user)` (src/app.py:49-52): `False` for a missing user, else
`str(user.get("id")) == SITE_ADMIN_ID`.  When the environment variable is
unset, `SITE_ADMIN_ID` is Python `None` and the `==` is always `False`. -/
def is_admin (adminId : Option String) : Option Actor → Bool
  | none => false
  | some u =>
    match adminId with
    | none => false
    | some a => pyStr u.id == a

/-- `is_bot_owner(bot, user)` (src/app.py:54-57): `False` if either is
missing, else `str(bot.owner_id) == str(user.get("id"))`. -/
def is_bot_owner : Option Bot → Option Actor → Bool
  | _, none => false
  | none, _ => false
  | some b, some u => pyStr b.owner_id == pyStr u.id

/-- `can_edit_bot(bot, user)` (src/app.py:59-60). -/
def can_edit_bot (adminId : Option String) (bot : Option Bot) (user : Option Actor) : Bool :=
  is_admin adminId user || is_bot_owner bot user

/-- `can_delete_bot(bot, user)` (src/app.py:62-63). -/
def can_delete_bot (adminId : Option String) (bot : Option Bot) (user : Option Actor) : Bool :=
  is_admin adminId user || is_bot_owner bot user

/-- `COOLDOWN_HOURS = 6` (src/app.py:26). -/
def COOLDOWN_HOURS : Int := 6

/-- `timedelta(hours=COOLDOWN_HOURS)` in whole seconds. -/
def cooldownWindow : Int := COOLDOWN_HOURS * 3600

/-- A key of `user_votes`: `(str(user_id), str(bot_id))`. -/
abbrev VoteKey := String × String

/-- The `user_votes` map (src/app.py:27), entries in whole seconds. -/
abbrev VoteStore := VoteKey → Option Int

/-- The `Bot` table, queried by primary key (`Bot.query.filter_by(id=...)`). -/
abbrev BotDB := String → Option Bot

/-- `user_votes[key] = t`. -/
def storeSet (s : VoteStore) (k : VoteKey) (t : Int) : VoteStore :=
  fun k' => if k' = k then some t else s k'

/-- Committing an updated row back to the `Bot` table. -/
def dbSet (db : BotDB) (i : String) (b : Bot) : BotDB :=
  fun i' => if i' = i then some b else db i'

/-- Python `timedelta.seconds`: the normalised seconds component,
`total_seconds mod 86400` (in `[0, 86400)`). -/
def tdSecondsComponent (t : Int) : Int := t % 86400

/-- The cooldown message of src/app.py:136-138 and 316-318:
`hours, remainder = divmod(cooldown_left.seconds, 3600)`,
`minutes = remainder // 60`, rendered `f"{hours}h {minutes}m"`. -/
def formatCooldown (remaining : Int) : String :=
  let secs := (tdSecondsComponent remaining).toNat
  let hours := secs / 3600
  let remainder := secs % 3600
  let minutes := remainder / 60
  toString hours ++ "h " ++ toString minutes ++ "m"

/-- The discriminated response of the `/upvote/<bot_id>` handler. -/
inductive UpvoteResult where
  | loginRequired : UpvoteResult
  | notFound : UpvoteResult
  | cooldownActive : String → UpvoteResult
  | ok : Int → UpvoteResult
deriving DecidableEq, Repr

/-- Python `x or 0` on the value of an `Option Int` column: `None` and `0`
are falsy and give `0`, everything else gives itself. -/
def pyOrZero : Option Int → Int
  | none => 0
  | some n => if n = 0 then 0 else n

/-- The response of `upvote_bot` together with the state it leaves behind. -/
structure UpvoteOutcome where
  response : UpvoteResult
  db : BotDB
  votes : VoteStore

/-- `upvote_bot(bot_id)` (src/app.py:300-324): 401 without a session user,
404 for an unknown bot, 403 with a rendered remaining time while the
cooldown is active, otherwise increments `(bot.upvotes or 0) + 1`, records
`user_votes[key] = now` and returns the new count. -/
def upvote_bot (db : BotDB) (votes : VoteStore) (user : Option Actor)
    (bot_id : String) (now : Int) : UpvoteOutcome :=
  match user with
  | none => ⟨.loginRequired, db, votes⟩
  | some u =>
    match db bot_id with
    | none => ⟨.notFound, db, votes⟩
    | some bot =>
      let key : VoteKey := (pyStr u.id, bot_id)
      let admitVote : UpvoteOutcome :=
        let newCount := pyOrZero bot.upvotes + 1
        ⟨.ok newCount, dbSet db bot_id { bot with upvotes := some newCount },
          storeSet votes key now⟩
      match votes key with
      | some last_vote =>
        if now - last_vote < cooldownWindow then
          ⟨.cooldownActive ("Cooldown: next vote in " ++
              formatCooldown (last_vote + cooldownWindow - now)), db, votes⟩
        else
          admitVote
      | none => admitVote

/-- The vote-related template inputs of `bot_detail`. -/
structure DetailVoteView where
  can_vote : Bool
  cooldown_msg : Option String
deriving DecidableEq, Repr

/-- The cooldown query inside `bot_detail` (src/app.py:125-138): computes
`can_vote` and `cooldown_msg` from `user_votes` without writing to it; the
returned store is the store the handler leaves behind. -/
def bot_detail_vote (votes : VoteStore) (user : Option Actor) (bot_id : String)
    (now : Int) : DetailVoteView × VoteStore :=
  match user with
  | none => (⟨true, none⟩, votes)
  | some u =>
    let key : VoteKey := (pyStr u.id, bot_id)
    match votes key with
    | none => (⟨true, none⟩, votes)
    | some last_vote =>
      if now - last_vote < cooldownWindow then
        (⟨false, some (formatCooldown (last_vote + cooldownWindow - now))⟩, votes)
      else
        (⟨true, none⟩, votes)

/-- Was the upvote admitted (HTTP 200)? -/
def admitted : UpvoteResult → Bool
  | .ok _ => true
  | _ => false

/-! Concrete fixtures used by witnesses. -/

/-- A bot owned by `"owner9"` with 5 upvotes. -/
def bot0 : Bot := ⟨"b1", .strV "owner9", some 5⟩

/-- A bot whose `upvotes` column is NULL. -/
def botN : Bot := ⟨"b2", .strV "owner9", none⟩

/-- A bot whose `owner_id` is the string `"123"`. -/
def bot123 : Bot := ⟨"b123", .strV "123", some 0⟩

/-- A table holding `bot0` and `botN`. -/
def db0 : BotDB := fun i => if i = "b1" then some bot0 else if i = "b2" then some botN else none

/-- The empty vote store. -/
def votes0 : VoteStore := fun _ => none

/-- A store in which `("u1", "b1")` last voted at time 0. -/
def votes1 : VoteStore := storeSet votes0 ("u1", "b1") 0

/-- The session user with string id `"u1"`. -/
def u1 : Actor := ⟨.strV "u1"⟩

/-- `x or 0` on a non-NULL column value is the value itself. -/
theorem pyOrZero_some (n : Int) : pyOrZero (some n) = n := by
  by_cases h : n = 0 <;> simp [pyOrZero, h]

/-- Claim C1 counterexample: with the administrator id configured as `"42"`,
the admin actor gets `can_edit_bot = true` and `can_delete_bot = true` even
for an absent (`None`) bot, so the claim that an absent resource is denied
for every actor (including the administrator) is false. -/
theorem c1_counterexample :
    can_edit_bot (some "42") none (some ⟨PyVal.strV "42"⟩) = true ∧
    can_delete_bot (some "42") none (some ⟨PyVal.strV "42"⟩) = true := by
  constructor <;> rfl

/-- Claim C1 (amended): when the resource is absent, `can_edit_bot` and
`can_delete_bot` reduce to the admin check alone — false for an absent actor
and for every non-admin actor, but true for the configured administrator. -/
theorem c1_absent_resource_is_admin_check (adminId : Option String) (user : Option Actor) :
    can_edit_bot adminId none user = is_admin adminId user ∧
    can_delete_bot adminId none user = is_admin adminId user := by
  cases user <;> simp [can_edit_bot, can_delete_bot, is_bot_owner, is_admin]

/-- Claim C2: with a session user present and the bot found, the upvote is
admitted iff no cooldown entry exists for `(str(user_id), str(bot_id))` or
`now - entry ≥ cooldownWindow`; in particular a first vote for a key and a
vote at exactly `entry + window` are admitted. -/
theorem c2_admitted_iff (db : BotDB) (votes : VoteStore) (u : Actor) (bot_id : String)
    (now : Int) (bot : Bot) (hdb : db bot_id = some bot) :
    admitted (upvote_bot db votes (some u) bot_id now).response = true ↔
      votes (pyStr u.id, bot_id) = none ∨
        ∃ t, votes (pyStr u.id, bot_id) = some t ∧ cooldownWindow ≤ now - t := by
  cases hv : votes (pyStr u.id, bot_id) with
  | none => simp [upvote_bot, hdb, hv, admitted]
  | some t =>
    by_cases hlt : now - t < cooldownWindow
    · simp only [upvote_bot, hdb, hv, if_pos hlt]
      simpa [admitted] using hlt
    · simp only [upvote_bot, hdb, hv, if_neg hlt]
      simp [admitted]
      simp only [cooldownWindow, COOLDOWN_HOURS] at hlt ⊢
      omega

/-- Claim C2 witness: a vote recorded at time 0 is admitted again at exactly
`0 + cooldownWindow = 21600` seconds. -/
theorem c2_witness :
    admitted (upvote_bot db0 votes1 (some u1) "b1" 21600).response = true :=
  (c2_admitted_iff db0 votes1 u1 "b1" 21600 bot0 rfl).mpr
    (Or.inr ⟨0, rfl, by decide⟩)

/-- Claim C3: a rejected upvote (entry recorded in the past, still inside the
window) returns 403 with remaining `entry + cooldownWindow - now`, rendered
with `hours = remaining_seconds / 3600` and
`minutes = (remaining_seconds mod 3600) / 60`, seconds discarded. -/
theorem c3_rejection_rendering (db : BotDB) (votes : VoteStore) (u : Actor)
    (bot_id : String) (now last_vote : Int) (bot : Bot)
    (hdb : db bot_id = some bot)
    (hv : votes (pyStr u.id, bot_id) = some last_vote)
    (hpast : last_vote ≤ now)
    (hwin : now - last_vote < cooldownWindow) :
    (upvote_bot db votes (some u) bot_id now).response =
      .cooldownActive ("Cooldown: next vote in " ++
        (toString ((last_vote + cooldownWindow - now).toNat / 3600) ++ "h " ++
         toString ((last_vote + cooldownWindow - now).toNat % 3600 / 60) ++ "m")) := by
  have hrem0 : 0 ≤ last_vote + cooldownWindow - now := by
    simp only [cooldownWindow, COOLDOWN_HOURS] at *
    omega
  have hrem : last_vote + cooldownWindow - now < 86400 := by
    simp only [cooldownWindow, COOLDOWN_HOURS] at *
    omega
  simp only [upvote_bot, hdb, hv, if_pos hwin]
  congr 1
  simp [formatCooldown, tdSecondsComponent, Int.emod_eq_of_lt hrem0 hrem]

/-- Claim C3 witness: one minute of cooldown left renders as "0h 1m". -/
theorem c3_witness :
    (upvote_bot db0 votes1 (some u1) "b1" 21540).response =
      UpvoteResult.cooldownActive "Cooldown: next vote in 0h 1m" := by
  rw [c3_rejection_rendering db0 votes1 u1 "b1" 21540 0 bot0 rfl rfl (by decide) (by decide)]
  decide

/-- Claim C4: the vote store is written only on an admitted upvote; a
rejected attempt (any non-200 outcome) leaves the store untouched, an
admitted vote for a key changes no other key, and the read-only cooldown
query of `bot_detail` returns the store unchanged. -/
theorem c4_store_frame (db : BotDB) (votes : VoteStore) (user : Option Actor)
    (bot_id : String) (now : Int) :
    (admitted (upvote_bot db votes user bot_id now).response = false →
      (upvote_bot db votes user bot_id now).votes = votes) ∧
    (∀ u : Actor, user = some u → ∀ k' : VoteKey, k' ≠ (pyStr u.id, bot_id) →
      (upvote_bot db votes user bot_id now).votes k' = votes k') ∧
    (bot_detail_vote votes user bot_id now).2 = votes := by
  refine ⟨?_, ?_, ?_⟩
  · cases user with
    | none => intro _; rfl
    | some u =>
      cases hdb : db bot_id with
      | none => intro _; simp [upvote_bot, hdb]
      | some bot =>
        cases hv : votes (pyStr u.id, bot_id) with
        | none =>
          intro hadm
          simp [upvote_bot, hdb, hv, admitted] at hadm
        | some t =>
          by_cases hlt : now - t < cooldownWindow
          · intro _
            simp [upvote_bot, hdb, hv, if_pos hlt]
          · intro hadm
            simp [upvote_bot, hdb, hv, if_neg hlt, admitted] at hadm
  · rintro u rfl k' hk
    cases hdb : db bot_id with
    | none => simp [upvote_bot, hdb]
    | some bot =>
      cases hv : votes (pyStr u.id, bot_id) with
      | none => simp [upvote_bot, hdb, hv, storeSet, if_neg hk]
      | some t =>
        by_cases hlt : now - t < cooldownWindow
        · simp [upvote_bot, hdb, hv, if_pos hlt]
        · simp [upvote_bot, hdb, hv, if_neg hlt, storeSet, if_neg hk]
  · cases user with
    | none => rfl
    | some u =>
      cases hv : votes (pyStr u.id, bot_id) with
      | none => simp [bot_detail_vote, hv]
      | some t =>
        by_cases hlt : now - t < cooldownWindow
        · simp [bot_detail_vote, hv, if_pos hlt]
        · simp [bot_detail_vote, hv, if_neg hlt]

/-- Claim C5: the upvote handler returns a discriminated outcome — 401
without a session user, 404 for an unknown bot, 403 while the cooldown is
active — and in each error case both the bot table and the vote store are
unchanged; only on an admitted vote does the count become
`(upvotes or 0) + 1` and the entry get written to `now`. -/
theorem c5_error_paths (db : BotDB) (votes : VoteStore) (bot_id : String) (now : Int) :
    ((upvote_bot db votes none bot_id now).response = .loginRequired ∧
      (upvote_bot db votes none bot_id now).db = db ∧
      (upvote_bot db votes none bot_id now).votes = votes) ∧
    (∀ u : Actor, db bot_id = none →
      (upvote_bot db votes (some u) bot_id now).response = .notFound ∧
      (upvote_bot db votes (some u) bot_id now).db = db ∧
      (upvote_bot db votes (some u) bot_id now).votes = votes) ∧
    (∀ (u : Actor) (bot : Bot) (t : Int), db bot_id = some bot →
      votes (pyStr u.id, bot_id) = some t → now - t < cooldownWindow →
      (∃ m, (upvote_bot db votes (some u) bot_id now).response = .cooldownActive m) ∧
      (upvote_bot db votes (some u) bot_id now).db = db ∧
      (upvote_bot db votes (some u) bot_id now).votes = votes) ∧
    (∀ (u : Actor) (bot : Bot), db bot_id = some bot →
      admitted (upvote_bot db votes (some u) bot_id now).response = true →
      (upvote_bot db votes (some u) bot_id now).response = .ok (pyOrZero bot.upvotes + 1) ∧
      (upvote_bot db votes (some u) bot_id now).db =
        dbSet db bot_id { bot with upvotes := some (pyOrZero bot.upvotes + 1) } ∧
      (upvote_bot db votes (some u) bot_id now).votes =
        storeSet votes (pyStr u.id, bot_id) now) := by
  refine ⟨⟨rfl, rfl, rfl⟩, ?_, ?_, ?_⟩
  · intro u hdb
    refine ⟨?_, ?_, ?_⟩ <;> simp [upvote_bot, hdb]
  · intro u bot t hdb hv hlt
    refine ⟨⟨"Cooldown: next vote in " ++ formatCooldown (t + cooldownWindow - now), ?_⟩, ?_, ?_⟩
      <;> simp [upvote_bot, hdb, hv, if_pos hlt]
  · intro u bot hdb hadm
    cases hv : votes (pyStr u.id, bot_id) with
    | none => refine ⟨?_, ?_, ?_⟩ <;> simp [upvote_bot, hdb, hv]
    | some t =>
      by_cases hlt : now - t < cooldownWindow
      · simp [upvote_bot, hdb, hv, if_pos hlt, admitted] at hadm
      · refine ⟨?_, ?_, ?_⟩ <;> simp [upvote_bot, hdb, hv, if_neg hlt]

/-- Claim C6: an actor whose stringified id equals the configured
administrator id may edit every resource, whether or not it owns it. -/
theorem c6_admin_can_edit (a : String) (bot : Option Bot) (u : Actor)
    (hid : pyStr u.id = a) :
    can_edit_bot (some a) bot (some u) = true := by
  simp [can_edit_bot, is_admin, hid]

/-- Claim C6 witness: the admin "42" can edit `bot0`, which is owned by
"owner9". -/
theorem c6_witness :
    can_edit_bot (some "42") (some bot0) (some ⟨PyVal.strV "42"⟩) = true :=
  c6_admin_can_edit "42" (some bot0) ⟨PyVal.strV "42"⟩ rfl

/-- Claim C7: `can_edit_bot` and `can_delete_bot` are extensionally the same
policy, for every configured admin id, resource (present or absent) and
actor (present or absent). -/
theorem c7_can_edit_eq_can_delete (adminId : Option String) (bot : Option Bot)
    (user : Option Actor) :
    can_edit_bot adminId bot user = can_delete_bot adminId bot user := rfl

/-- Claim C9: every identity comparison goes through `str(·)`: ownership
compares `str(owner_id)` with `str(user id)` (so the int id 123 owns a bot
whose `owner_id` is the string "123"), the admin check compares
`str(user id)` with the configured id, and the upvote path keys the
cooldown store by the stringified ids, so the int and string forms of one
id share a single entry and behave identically. -/
theorem c9_ids_via_str :
    (∀ (b : Bot) (u : Actor),
        is_bot_owner (some b) (some u) = (pyStr b.owner_id == pyStr u.id)) ∧
    (∀ b : Bot, b.owner_id = PyVal.strV "123" →
        is_bot_owner (some b) (some ⟨PyVal.intV 123⟩) = true) ∧
    (∀ (a : String) (u : Actor),
        is_admin (some a) (some u) = (pyStr u.id == a)) ∧
    (∀ (db : BotDB) (votes : VoteStore) (bot_id : String) (now n : Int),
        upvote_bot db votes (some ⟨PyVal.intV n⟩) bot_id now =
          upvote_bot db votes (some ⟨PyVal.strV (toString n)⟩) bot_id now) := by
  refine ⟨fun b u => rfl, ?_, fun a u => rfl, fun db votes bot_id now n => rfl⟩
  intro b hb
  simp [is_bot_owner, hb, pyStr]
  decide

/-- Claim C10: an admitted upvote on a bot whose `upvotes` column is NULL
treats the count as 0 and stores 1; `(bot.upvotes or 0) + 1` is total. -/
theorem c10_null_upvotes_total (db : BotDB) (votes : VoteStore) (u : Actor)
    (bot_id : String) (now : Int) (bot : Bot)
    (hdb : db bot_id = some bot) (hnull : bot.upvotes = none)
    (hfresh : votes (pyStr u.id, bot_id) = none) :
    (upvote_bot db votes (some u) bot_id now).response = .ok 1 ∧
    (upvote_bot db votes (some u) bot_id now).db bot_id =
      some { bot with upvotes := some 1 } := by
  constructor <;> simp [upvote_bot, hdb, hfresh, hnull, pyOrZero, dbSet]

/-- Claim C10 witness: a first vote on `botN` (NULL upvotes) stores 1. -/
theorem c10_witness :
    (upvote_bot db0 votes0 (some u1) "b2" 7).response = UpvoteResult.ok 1 ∧
    (upvote_bot db0 votes0 (some u1) "b2" 7).db "b2" =
      some { botN with upvotes := some 1 } :=
  c10_null_upvotes_total db0 votes0 u1 "b2" 7 botN rfl rfl rfl

end BotsHub
